import Mathlib

/-!
Verification of the claude-frontend leaderboard application.

The definitions below are a shallow embedding of the TypeScript source:
* `src/types/leaderboard.ts` — the `Player` and `LeaderboardData` records;
* `src/components/LeaderboardCard.tsx` — `getVariant` and the list rendering
  (items plus the divider after the third row);
* `src/components/LeaderboardItem.tsx` — `getRankBadgeStyles`,
  `getHoverStyles`, `getLeftAccentColor` and the trend-percentage text;
* `src/components/LeaderboardTabs.tsx` — the two period buttons;
* `src/pages/LandingPage.tsx` — the `period` state and the props passed to
  `LeaderboardCard`;
* `src/services/leaderboard.ts` — `fetchLeaderboard`.

TypeScript `number` fields are embedded as `Int` (ranks and trend values can
be negative), string-literal union types as inductives, optional parameters
and optional record fields as `Option`, and the promise returned by
`fetchLeaderboard` as an explicit outcome record carrying the simulated
delay and an `Except` result.
-/

namespace ClaudeFrontend

/-- Trend direction of a player (`"up" | "down" | "neutral"` in
`src/types/leaderboard.ts`). -/
inductive Trend where
  | up
  | down
  | neutral
deriving DecidableEq, Repr

/-- The leaderboard time-window filter (`"week" | "alltime"`). -/
inductive Period where
  | week
  | alltime
deriving DecidableEq, Repr

/-- The visual style bucket (`"top1" | "top3" | "default"`). -/
inductive Variant where
  | top1
  | top3
  | default
deriving DecidableEq, Repr

/-- The `Player` interface of `src/types/leaderboard.ts`.  The two optional
fields become `Option Bool`. -/
structure Player where
  id : String
  rank : Int
  name : String
  username : String
  avatar : String
  score : Int
  trend : Trend
  trendValue : Int
  isVerified : Option Bool := none
  isTopRank : Option Bool := none
deriving DecidableEq, Repr

/-- The `LeaderboardData` interface of `src/types/leaderboard.ts`. -/
structure LeaderboardData where
  period : Period
  players : List Player
  currentUser : Player
deriving DecidableEq, Repr

/-- `getVariant` from `LeaderboardCard.tsx`:
`if (rank === 1) return "top1"; if (rank <= 3) return "top3"; return "default"`. -/
def getVariant (rank : Int) : Variant :=
  if rank = 1 then .top1
  else if rank ≤ 3 then .top3
  else .default

/-- `getRankBadgeStyles` from `LeaderboardItem.tsx`.  Both parameters are
optional in the source (`variant?`, `rank?`); a `switch` with no `default`
branch yields `undefined` when no case matches, hence the `Option String`
result. -/
def getRankBadgeStyles (variant : Option Variant) (rank : Option Int) : Option String :=
  match variant with
  | some .top1 =>
      some "bg-yellow-100 text-yellow-700 w-10 h-10 border-2 border-white shadow-sm"
  | some .top3 =>
      if rank = some 2 then
        some "bg-stone-100 text-stone-600 w-10 h-10 border-2 border-white shadow-sm"
      else
        some "bg-orange-100 text-orange-800 w-10 h-10 border-2 border-white shadow-sm"
  | some .default =>
      some "text-stone-400 w-10 h-10"
  | none => none

/-- `getHoverStyles` from `LeaderboardItem.tsx`, same optional-parameter and
missing-`default`-branch conventions as `getRankBadgeStyles`. -/
def getHoverStyles (variant : Option Variant) (rank : Option Int) : Option String :=
  match variant with
  | some .top1 =>
      some "hover:bg-yellow-50/50 hover:border-yellow-100 hover-bounce"
  | some .top3 =>
      if rank = some 2 then
        some "hover:bg-stone-50 hover:border-stone-200 hover-bounce"
      else
        some "hover:bg-orange-50/50 hover:border-orange-100 hover-bounce"
  | some .default =>
      some "hover:bg-stone-50 hover:border-stone-200"
  | none => none

/-- `getLeftAccentColor` from `LeaderboardItem.tsx`: only the `top1` case is
named, every other variant falls to the `default: return ""` branch. -/
def getLeftAccentColor (variant : Option Variant) : String :=
  match variant with
  | some .top1 => "left-0 top-0 bottom-0 w-1 bg-yellow-400 rounded-l-2xl"
  | _ => ""

/-- The trend percentage shown by `LeaderboardItemComponent`:
`Math.abs(player.trendValue)` (`LeaderboardItem.tsx`, score-and-trend block). -/
def trendPercent (player : Player) : Nat :=
  player.trendValue.natAbs

/-- The full text of the trend span rendered by `LeaderboardItemComponent`:
the absolute trend value followed by a percent sign. -/
def trendValueText (player : Player) : String :=
  toString (trendPercent player) ++ "%"

/-- Modelled from the spec: the mock data file `src/data/mockLeaderboard.ts`
is imported by `LandingPage.tsx` and the leaderboard service but is not part
of the source snapshot.  The spec describes it as a static in-memory mapping,
one `LeaderboardData` instance per period; the service file documents the
week records (Felix, rank 1, score 4250, trend up 120, verified top rank, and
a Guest User current user, rank 42, score 2340, trend up 45).  The remaining
entries are representative static records in the same shape. -/
def mockLeaderboardData : Period → LeaderboardData
  | .week =>
      { period := .week
        players :=
          [ { id := "1", rank := 1, name := "Felix", username := "felixcodes"
              avatar := "https://api.dicebear.com/9.x/avataaars/svg?seed=Felix"
              score := 4250, trend := .up, trendValue := 120
              isVerified := some true, isTopRank := some true }
          , { id := "2", rank := 2, name := "Aneka", username := "aneka"
              avatar := "https://api.dicebear.com/9.x/avataaars/svg?seed=Aneka"
              score := 3980, trend := .up, trendValue := 85 }
          , { id := "3", rank := 3, name := "Jasper", username := "jasper"
              avatar := "https://api.dicebear.com/9.x/avataaars/svg?seed=Jasper"
              score := 3720, trend := .down, trendValue := 12 }
          , { id := "4", rank := 4, name := "Luna", username := "luna"
              avatar := "https://api.dicebear.com/9.x/avataaars/svg?seed=Luna"
              score := 3410, trend := .neutral, trendValue := 0 }
          , { id := "5", rank := 5, name := "Milo", username := "milo"
              avatar := "https://api.dicebear.com/9.x/avataaars/svg?seed=Milo"
              score := 3150, trend := .up, trendValue := 34 } ]
        currentUser :=
          { id := "guest", rank := 42, name := "Guest User", username := "guest"
            avatar := "https://api.dicebear.com/9.x/avataaars/svg?seed=Guest"
            score := 2340, trend := .up, trendValue := 45
            isVerified := some false, isTopRank := some false } }
  | .alltime =>
      { period := .alltime
        players :=
          [ { id := "1", rank := 1, name := "Aneka", username := "aneka"
              avatar := "https://api.dicebear.com/9.x/avataaars/svg?seed=Aneka"
              score := 18230, trend := .up, trendValue := 8
              isVerified := some true, isTopRank := some true }
          , { id := "2", rank := 2, name := "Felix", username := "felixcodes"
              avatar := "https://api.dicebear.com/9.x/avataaars/svg?seed=Felix"
              score := 17940, trend := .down, trendValue := 3
              isVerified := some true }
          , { id := "3", rank := 3, name := "Milo", username := "milo"
              avatar := "https://api.dicebear.com/9.x/avataaars/svg?seed=Milo"
              score := 16010, trend := .up, trendValue := 21 }
          , { id := "4", rank := 4, name := "Jasper", username := "jasper"
              avatar := "https://api.dicebear.com/9.x/avataaars/svg?seed=Jasper"
              score := 15550, trend := .neutral, trendValue := 0 }
          , { id := "5", rank := 5, name := "Luna", username := "luna"
              avatar := "https://api.dicebear.com/9.x/avataaars/svg?seed=Luna"
              score := 14870, trend := .down, trendValue := 6 } ]
        currentUser :=
          { id := "guest", rank := 42, name := "Guest User", username := "guest"
            avatar := "https://api.dicebear.com/9.x/avataaars/svg?seed=Guest"
            score := 2340, trend := .up, trendValue := 45
            isVerified := some false, isTopRank := some false } }

/-- Outcome of the promise returned by `fetchLeaderboard`: the simulated
delay in milliseconds and the settled value (`Except.ok` for a resolution,
`Except.error` for a rejection). -/
structure FetchOutcome where
  delayMs : Nat
  result : Except String LeaderboardData
deriving Repr

/-- `fetchLeaderboard` from the leaderboard service: awaits a 300 ms
`setTimeout` promise, then returns `mockLeaderboardData[period]`.  The body
has no throw and no rejection path, so the result is always `Except.ok`. -/
def fetchLeaderboard (period : Period) : FetchOutcome :=
  { delayMs := 300
    result := Except.ok (mockLeaderboardData period) }

/-- The two buttons rendered by `LeaderboardTabs.tsx`: "This Week" and
"All Time". -/
inductive TabButton where
  | thisWeek
  | allTime
deriving DecidableEq, Repr

/-- The period each tab button passes to `onPeriodChange` when clicked
(`LeaderboardTabs.tsx`: the first button calls `onPeriodChange("week")`, the
second `onPeriodChange("alltime")`). -/
def tabClickPeriod : TabButton → Period
  | .thisWeek => .week
  | .allTime => .alltime

/-- The state of the mounted application: the `period` component of
`LandingPage`'s `useState`, together with the in-memory leaderboard mapping
the page reads from. -/
structure AppState where
  period : Period
  data : Period → LeaderboardData

/-- The state of `LandingPage` right after mount:
`useState<"week" | "alltime">("week")`, reading `mockLeaderboardData`. -/
def initialState : AppState :=
  { period := .week, data := mockLeaderboardData }

/-- One user interaction: clicking a tab button runs `LandingPage`'s
`setPeriod` with the period of that button; nothing else in the component
tree updates any state. -/
def step (s : AppState) (b : TabButton) : AppState :=
  { s with period := tabClickPeriod b }

/-- A run of the application: fold a sequence of tab clicks over a state. -/
def run (s : AppState) : List TabButton → AppState
  | [] => s
  | b :: rest => run (step s b) rest

/-- The props `LandingPage.tsx` passes to `LeaderboardCard`
(`onPeriodChange` is `setPeriod` and is modelled by `step`). -/
structure LeaderboardCardProps where
  players : List Player
  currentUser : Player
  activePeriod : Period
deriving DecidableEq, Repr

/-- The render of `LandingPage.tsx`: `currentData = mockLeaderboardData[period]`,
then `players={currentData.players}`, `currentUser={currentData.currentUser}`,
`activePeriod={period}`. -/
def landingPageCardProps (s : AppState) : LeaderboardCardProps :=
  let currentData := s.data s.period
  { players := currentData.players
    currentUser := currentData.currentUser
    activePeriod := s.period }

/-- One node in the list rendered by `LeaderboardCard.tsx`: either a
`LeaderboardItem` (with the variant derived from the player's rank) or the
divider `div`. -/
inductive RowNode where
  | item (player : Player) (variant : Variant)
  | divider
deriving DecidableEq, Repr

/-- Whether a row node is the divider. -/
def RowNode.isDivider : RowNode → Bool
  | .divider => true
  | .item _ _ => false

/-- The body of `players.map((player, index) => ...)` in
`LeaderboardCard.tsx`, elaborated recursively: each player yields a
`LeaderboardItem` with `getVariant(player.rank)`, followed by the divider
exactly when `index === 2 && players.length > 3`.  `total` is the length of
the whole list and `i` the index of the head. -/
def renderRows (total : Nat) : Nat → List Player → List RowNode
  | _, [] => []
  | i, player :: rest =>
      RowNode.item player (getVariant player.rank)
        :: ((if i = 2 ∧ total > 3 then [RowNode.divider] else [])
            ++ renderRows total (i + 1) rest)

/-- The full list of item and divider nodes rendered by `LeaderboardCard`. -/
def leaderboardRows (players : List Player) : List RowNode :=
  renderRows players.length 0 players

/-- A concrete player outside the top ranks with a positive trend, used to
exercise the lemmas on sample inputs. -/
def samplePlayerUp : Player :=
  { id := "s1", rank := 6, name := "Sam", username := "sam"
    avatar := "https://api.dicebear.com/9.x/avataaars/svg?seed=Sam"
    score := 2900, trend := .up, trendValue := 45 }

/-- The same sample player with the trend value negated. -/
def samplePlayerDown : Player :=
  { id := "s2", rank := 7, name := "Tess", username := "tess"
    avatar := "https://api.dicebear.com/9.x/avataaars/svg?seed=Tess"
    score := 2800, trend := .down, trendValue := -45 }

/-- The step function keeps the `data` component of the state untouched. -/
theorem step_preserves_data (s : AppState) (b : TabButton) :
    (step s b).data = s.data := rfl

/-- A whole run of tab clicks keeps the `data` component untouched. -/
theorem run_preserves_data (evs : List TabButton) (s : AppState) :
    (run s evs).data = s.data := by
  induction evs generalizing s with
  | nil => rfl
  | cons b rest ih => exact ih (step s b)

/-- Past index 2 the rendering emits plain items only: no further divider. -/
theorem renderRows_ge3 (total : Nat) (i : Nat) (ps : List Player) (h : 2 < i) :
    renderRows total i ps =
      ps.map (fun p => RowNode.item p (getVariant p.rank)) := by
  induction ps generalizing i with
  | nil => rfl
  | cons p rest ih =>
      simp only [renderRows, List.map_cons]
      rw [if_neg (by omega : ¬(i = 2 ∧ total > 3)), List.nil_append,
        ih (i + 1) (by omega)]

/-- A list of rendered items contains no divider. -/
theorem countP_item_map (ps : List Player) :
    (ps.map (fun p => RowNode.item p (getVariant p.rank))).countP
      RowNode.isDivider = 0 := by
  induction ps with
  | nil => rfl
  | cons p rest ih => simp [List.countP_cons, RowNode.isDivider, ih]

/-- Structure of the rendered list: for more than 3 players it is the first
three items, the divider, then the remaining items; otherwise it is the
plain item list. -/
theorem leaderboardRows_eq (players : List Player) :
    leaderboardRows players =
      if 3 < players.length then
        (players.take 3).map (fun p => RowNode.item p (getVariant p.rank))
          ++ RowNode.divider
            :: (players.drop 3).map (fun p => RowNode.item p (getVariant p.rank))
      else players.map (fun p => RowNode.item p (getVariant p.rank)) := by
  rcases players with _ | ⟨a, _ | ⟨b, _ | ⟨c, _ | ⟨d, rest⟩⟩⟩⟩
  · simp [leaderboardRows, renderRows]
  · simp [leaderboardRows, renderRows]
  · simp [leaderboardRows, renderRows]
  · simp [leaderboardRows, renderRows]
  · have hlen : 3 < (a :: b :: c :: d :: rest).length := by
      simp only [List.length_cons]
      omega
    rw [if_pos hlen]
    have c0 : ¬(0 = 2 ∧ (a :: b :: c :: d :: rest).length > 3) := by
      rintro ⟨h02, _⟩
      omega
    have c1 : ¬(1 = 2 ∧ (a :: b :: c :: d :: rest).length > 3) := by
      rintro ⟨h12, _⟩
      omega
    have c2 : 2 = 2 ∧ (a :: b :: c :: d :: rest).length > 3 := ⟨rfl, hlen⟩
    have c3 : ¬(3 = 2 ∧ (a :: b :: c :: d :: rest).length > 3) := by
      rintro ⟨h32, _⟩
      omega
    simp only [leaderboardRows, renderRows, if_neg c0, if_neg c1, if_pos c2,
      if_neg c3, List.nil_append, List.singleton_append,
      renderRows_ge3 _ 3 (d :: rest) (by omega),
      renderRows_ge3 _ 4 rest (by omega)]
    simp [List.take, List.drop]

/-- C1 counterexample: at rank 0 `getVariant` does not return `default`; it
returns `top3`, because the `rank <= 3` test succeeds. -/
theorem getVariant_zero_not_default :
    getVariant 0 = Variant.top3 ∧ Variant.top3 ≠ Variant.default := by
  decide

/-- C1 (amended): `getVariant` returns `top1` iff rank = 1, `top3` iff
rank ≠ 1 and rank ≤ 3 (hence also for every rank below 1), and `default`
iff rank > 3. -/
theorem getVariant_characterization (rank : Int) :
    (getVariant rank = Variant.top1 ↔ rank = 1) ∧
    (getVariant rank = Variant.top3 ↔ (rank ≠ 1 ∧ rank ≤ 3)) ∧
    (getVariant rank = Variant.default ↔ 3 < rank) := by
  unfold getVariant
  split_ifs with h1 h2 <;> refine ⟨?_, ?_, ?_⟩ <;> simp_all

/-- C10: for every rank strictly below 1, `getVariant` returns `top3`,
because the `rank <= 3` test is checked with no lower bound. -/
theorem getVariant_below_one_top3 (rank : Int) (h : rank < 1) :
    getVariant rank = Variant.top3 := by
  unfold getVariant
  rw [if_neg (by omega), if_pos (by omega)]

/-- Witness for C10 at the concrete rank 0. -/
theorem getVariant_below_one_top3_witness :
    (0 : Int) < 1 ∧ getVariant 0 = Variant.top3 :=
  ⟨by decide, getVariant_below_one_top3 0 (by decide)⟩

/-- C2 counterexample: within the `top3` variant, rank 2 and rank 3 receive
different badge classes (stone versus orange) and different hover classes, so
the variant alone does not determine the returned class string. -/
theorem badge_hover_depend_on_rank :
    getRankBadgeStyles (some Variant.top3) (some 2)
        ≠ getRankBadgeStyles (some Variant.top3) (some 3) ∧
    getHoverStyles (some Variant.top3) (some 2)
        ≠ getHoverStyles (some Variant.top3) (some 3) := by
  constructor <;> decide

/-- C2 (amended): the badge and hover class strings are determined by the
variant together with whether the rank equals 2; the rank matters only in
the `top3` case, where rank 2 gets the stone styling and other ranks the
orange styling. -/
theorem badge_hover_determined_by_variant_and_rank2
    (v : Option Variant) (r r' : Option Int)
    (h : v = some Variant.top3 → ((r = some 2) ↔ (r' = some 2))) :
    getRankBadgeStyles v r = getRankBadgeStyles v r' ∧
    getHoverStyles v r = getHoverStyles v r' := by
  cases v with
  | none => exact ⟨rfl, rfl⟩
  | some variant =>
    cases variant with
    | top1 => exact ⟨rfl, rfl⟩
    | default => exact ⟨rfl, rfl⟩
    | top3 =>
      have h2 := h rfl
      unfold getRankBadgeStyles getHoverStyles
      by_cases hr : r = some 2
      · rw [if_pos hr, if_pos (h2.mp hr), if_pos hr, if_pos (h2.mp hr)]
        exact ⟨rfl, rfl⟩
      · rw [if_neg hr, if_neg (fun hh => hr (h2.mpr hh)),
          if_neg hr, if_neg (fun hh => hr (h2.mpr hh))]
        exact ⟨rfl, rfl⟩

/-- Witness for the amended C2 at a concrete variant and two distinct
ranks. -/
theorem badge_hover_determined_witness :
    getRankBadgeStyles (some Variant.top1) (some 5)
        = getRankBadgeStyles (some Variant.top1) (some 7) ∧
    getHoverStyles (some Variant.top1) (some 5)
        = getHoverStyles (some Variant.top1) (some 7) :=
  badge_hover_determined_by_variant_and_rank2
    (some Variant.top1) (some 5) (some 7) (by decide)

/-- C3: for every period, `fetchLeaderboard` resolves to exactly
`mockLeaderboardData[period]`, unmodified, after the simulated 300 ms
delay. -/
theorem fetchLeaderboard_resolves_mock (p : Period) :
    fetchLeaderboard p =
      { delayMs := 300, result := Except.ok (mockLeaderboardData p) } := rfl

/-- C4: `fetchLeaderboard` never fails: for every period the promise settles
with a successful resolution and never rejects. -/
theorem fetchLeaderboard_never_fails (p : Period) :
    ∃ d, (fetchLeaderboard p).result = Except.ok d :=
  ⟨mockLeaderboardData p, rfl⟩

/-- C5: no operation of the program mutates the leaderboard data: after any
sequence of user interactions the state still maps every period to the
original `mockLeaderboardData` record, and fetching a period always yields
that same record. -/
theorem leaderboard_data_never_mutated (evs : List TabButton) (p : Period) :
    (run initialState evs).data p = mockLeaderboardData p ∧
    (fetchLeaderboard p).result = Except.ok (mockLeaderboardData p) := by
  refine ⟨?_, rfl⟩
  rw [run_preserves_data]
  rfl

/-- C6: the period state is a two-value toggle: in every reachable state the
period is `week` or `alltime`, and each tab button click invokes
`onPeriodChange` with exactly one of these two values. -/
theorem period_two_value_toggle (evs : List TabButton) :
    ((run initialState evs).period = Period.week ∨
        (run initialState evs).period = Period.alltime) ∧
    ∀ b : TabButton,
      tabClickPeriod b = Period.week ∨ tabClickPeriod b = Period.alltime := by
  constructor
  · cases hp : (run initialState evs).period with
    | week => exact Or.inl rfl
    | alltime => exact Or.inr rfl
  · intro b
    cases b with
    | thisWeek => exact Or.inl rfl
    | allTime => exact Or.inr rfl

/-- C7: prop flow is unidirectional and period-driven: in every reachable
state, `LandingPage` passes `mockLeaderboardData[period].players`,
`mockLeaderboardData[period].currentUser` and the period itself to
`LeaderboardCard`. -/
theorem landingPage_prop_flow (evs : List TabButton) :
    landingPageCardProps (run initialState evs) =
      { players := (mockLeaderboardData (run initialState evs).period).players
        currentUser :=
          (mockLeaderboardData (run initialState evs).period).currentUser
        activePeriod := (run initialState evs).period } := by
  have hd : (run initialState evs).data = mockLeaderboardData :=
    run_preserves_data evs initialState
  simp [landingPageCardProps, hd]

/-- C8: the rendered list contains the divider exactly when the players list
has strictly more than 3 entries, in which case exactly one divider appears
and it sits right after the third item. -/
theorem divider_iff_more_than_three (players : List Player) :
    ((leaderboardRows players).countP RowNode.isDivider
        = if 3 < players.length then 1 else 0) ∧
    (3 < players.length →
      (leaderboardRows players)[3]? = some RowNode.divider) := by
  constructor
  · rw [leaderboardRows_eq]
    split_ifs with h
    · have h0 := countP_item_map players
      rw [← List.take_append_drop 3
          (players.map (fun p => RowNode.item p (getVariant p.rank))),
        List.countP_append] at h0
      simp [List.countP_append, List.countP_cons, RowNode.isDivider,
        List.map_take, List.map_drop]
      omega
    · exact countP_item_map players
  · intro h
    rw [leaderboardRows_eq, if_pos h]
    have hlen :
        ((players.take 3).map
          (fun p => RowNode.item p (getVariant p.rank))).length = 3 := by
      simp only [List.length_map, List.length_take]
      omega
    rw [List.getElem?_append_right (by omega), hlen]
    simp

/-- Witness for C8 on the concrete week mock data (5 players). -/
theorem divider_iff_more_than_three_witness :
    3 < (mockLeaderboardData Period.week).players.length ∧
    (leaderboardRows (mockLeaderboardData Period.week).players)[3]?
        = some RowNode.divider :=
  ⟨by decide,
    (divider_iff_more_than_three (mockLeaderboardData Period.week).players).2
      (by decide)⟩

/-- C9: the rendered trend percentage is the absolute value of
`trendValue`, so opposite trend values render the same text; the sign is
conveyed only by the trend icon and colors. -/
theorem trend_abs_rendering :
    (∀ p : Player, (trendPercent p : Int) = |p.trendValue|) ∧
    (∀ p q : Player, p.trendValue = -q.trendValue →
      trendValueText p = trendValueText q) := by
  constructor
  · intro p
    exact (Int.abs_eq_natAbs _).symm
  · intro p q h
    unfold trendValueText trendPercent
    rw [h, Int.natAbs_neg]

/-- Witness for C9 on two concrete players with opposite trend values. -/
theorem trend_abs_rendering_witness :
    samplePlayerUp.trendValue = -samplePlayerDown.trendValue ∧
    trendValueText samplePlayerUp = trendValueText samplePlayerDown :=
  ⟨by decide, trend_abs_rendering.2 samplePlayerUp samplePlayerDown (by decide)⟩

end ClaudeFrontend
